import Mathlib

/-
Verification development for the bcpandas bulk-transfer pipeline
(src/bcpandas/main.py).  The Python module is shallowly embedded:

  * `SqlCreds.__init__` / `__repr__`  →  `mkSqlCreds` / `sqlCredsRepr`;
  * `to_sql`                          →  `toSql`, acting on an explicit
    `World` (file system + event trace) with external outcomes (bcp exit
    code and captured output) passed as oracles;
  * `read_sql`                        →  `readSql`, likewise;
  * `pandas.DataFrame.to_csv` / `pandas.read_csv` at the exact argument
    lists used by the source  →  `dfToCsv` / `readCsvModel`.

The repository files `constants.py` and `utils.py` are not part of the
sources given; definitions taken from them are modelled from the spec and
carry a doc comment saying so.  Dataset cells are modelled after type
stringification (the spec compares round trips "modulo type
stringification").
-/

set_option autoImplicit false
set_option linter.unusedVariables false

namespace BcPandas

/-- Python-level failures that the embedded code can raise.  The spec's
error taxonomy (§7) groups fail-fast `assert` failures and `ValueError`s
together as its ValidationError. -/
inductive PyError where
  | valueError (msg : String)
  | assertionFailed
  | notImplementedError
  | attributeError (attr : String)
  | schemaError
  | bulkCopyError (output : String) (exitCode : Nat)
  deriving DecidableEq

/-- The spec's ValidationError (§7: "bad enum argument, disallowed
characters, missing credential fields") covers the source's fail-fast
assertion failures and ValueErrors. -/
def isValidationError : PyError → Bool
  | PyError.valueError _ => true
  | PyError.assertionFailed => true
  | _ => false

/-- A single-quote character, used by the Python repr of strings. -/
def squote : String := (Char.ofNat 39).toString

/-- Python repr of a plain string value (modelled for strings without
characters that the Python repr would escape). -/
def pyReprStr (s : String) : String := squote ++ s ++ squote

/-- Python repr of a boolean value. -/
def pyReprBool (b : Bool) : String := if b then "True" else "False"

/-- Whether `needle` is a leading segment of `hay`. -/
def leadsWith : List Char → List Char → Bool
  | [], _ => true
  | _ :: _, [] => false
  | a :: as, b :: bs => a == b && leadsWith as bs

/-- Whether `needle` occurs contiguously anywhere in `hay`. -/
def subOccurs (needle : List Char) : List Char → Bool
  | [] => leadsWith needle []
  | c :: t => leadsWith needle (c :: t) || subOccurs needle t

/-- Python's `sub in s` substring test. -/
def strContains (s sub : String) : Bool := subOccurs sub.data s.data

/-! ### Constants

`constants.py` is not among the given sources; the values below are
modelled from the spec, which fixes a single shared field delimiter and
record terminator (its scenarios use `|` and a newline) and the allowed
enumeration sets. -/

/-- Modelled from the spec: shared field delimiter (constants.py is not in
the given sources; the spec's scenarios use `|`). -/
def DELIMITER : Char := '|'

/-- Modelled from the spec: quote character for minimal quoting. -/
def QUOTECHAR : Char := '"'

/-- Modelled from the spec: shared record terminator. -/
def NEWLINE : String := "\n"

/-- Modelled from the spec: bulk-copy inbound direction tag. -/
def IN : String := "in"

/-- Modelled from the spec: bulk-copy outbound direction tag. -/
def OUT : String := "out"

/-- Modelled from the spec: the table object kind. -/
def TABLE : String := "table"

/-- Modelled from the spec: the view object kind. -/
def VIEW : String := "view"

/-- Modelled from the spec: allowed object kinds, `{table, view}`. -/
def SQL_TYPES : List String := [TABLE, VIEW]

/-- Modelled from the spec: allowed existence policies,
`{fail, replace, append}`. -/
def IF_EXISTS_OPTIONS : List String := ["fail", "replace", "append"]

/-! ### Credential object (`SqlCreds`) -/

/-- The credential object.  `username`/`password` are `none` exactly when
the corresponding Python attribute is never set by `__init__`; reading a
`none` field models the `AttributeError` Python raises then. -/
structure SqlCreds where
  server : String
  database : String
  username : Option String
  password : Option String
  with_krb_auth : Bool
  deriving DecidableEq

/-- Python truthiness of an optional string argument (absent and empty
strings are falsy). -/
def truthyStr : Option String → Bool
  | none => false
  | some s => !(s == "")

/-- `SqlCreds.__init__`: rejects falsy server/database, sets username and
password attributes and `with_krb_auth = False` when both are truthy, and
otherwise sets only `with_krb_auth = True`. -/
def mkSqlCreds (server database : String) (username password : Option String) :
    Except PyError SqlCreds :=
  if server == "" || database == "" then
    Except.error (PyError.valueError
      ("Server and database cannot be None, you passed " ++ server ++ ", " ++ database))
  else if truthyStr username && truthyStr password then
    Except.ok { server := server, database := database, username := username,
                password := password, with_krb_auth := false }
  else
    Except.ok { server := server, database := database, username := none,
                password := none, with_krb_auth := true }

/-- The `k=repr(v)` items of `self.__dict__` with the `password` key
skipped, in attribute insertion order. -/
def sqlCredsDictNoPw (c : SqlCreds) : List (String × String) :=
  [("server", pyReprStr c.server), ("database", pyReprStr c.database)]
    ++ (match c.username with
        | some u => [("username", pyReprStr u)]
        | none => [])
    ++ [("with_krb_auth", pyReprBool c.with_krb_auth)]

/-- `SqlCreds.__repr__`: joins the non-password items and, when a password
attribute exists, appends the fixed `password=[REDACTED]` marker. -/
def sqlCredsRepr (c : SqlCreds) : String :=
  let kwargs := String.intercalate ", "
    ((sqlCredsDictNoPw c).map (fun kv => kv.1 ++ "=" ++ kv.2))
  let kwargs := if c.password.isSome then kwargs ++ ", password=[REDACTED]" else kwargs
  "SqlCreds(" ++ kwargs ++ ")"

example : mkSqlCreds "s" "d" (some "u") (some "p")
    = Except.ok ⟨"s", "d", some "u", some "p", false⟩ := rfl

example : sqlCredsRepr ⟨"s", "d", some "u", some "p", false⟩
    = "SqlCreds(server=" ++ squote ++ "s" ++ squote ++ ", database=" ++ squote ++ "d"
      ++ squote ++ ", username=" ++ squote ++ "u" ++ squote
      ++ ", with_krb_auth=False, password=[REDACTED])" := rfl

/-! ### Datasets and the serialization used by `to_sql`

`df.to_csv(sep=DELIMITER, header=False, index=False, quoting=QUOTE_MINIMAL,
quotechar=QUOTECHAR, line_terminator=NEWLINE, doublequote=True,
escapechar=None)` is embedded by `dfToCsv`: minimal quoting, embedded
quotes escaped by doubling, no escape character, every record terminated
by the record terminator, no header row.  Cells are modelled after type
stringification. -/

/-- A pandas DataFrame: ordered column names, row data (stringified
cells), and the row index values. -/
structure DataFrame where
  cols : List String
  rows : List (List String)
  indexVals : List String
  deriving DecidableEq

/-- QUOTE_MINIMAL: a field gets quoted only when it holds the delimiter,
the quote character, or a line break. -/
def csvQuoteNeeded (sep quote : Char) (field : String) : Bool :=
  field.data.any (fun c => c == sep || c == quote || c == '\n' || c == '\r')

/-- Render one field: quoted (with embedded quotes doubled) only when
minimally necessary. -/
def csvRenderField (sep quote : Char) (field : String) : String :=
  if csvQuoteNeeded sep quote field then
    quote.toString
      ++ String.mk ((field.data.map
            (fun c => if c == quote then [quote, quote] else [c])).flatten)
      ++ quote.toString
  else field

/-- Render one record: fields joined by the field delimiter. -/
def csvRenderRow (sep quote : Char) (fields : List String) : String :=
  String.intercalate sep.toString (fields.map (csvRenderField sep quote))

/-- `DataFrame.to_csv` at the argument list used by `to_sql`, except that
`includeIndex` is kept as a parameter so that the effect of the source's
hard-coded `index=False` can be stated. -/
def dfToCsv (df : DataFrame) (sep quote : Char) (newline : String)
    (includeIndex : Bool) : String :=
  let rows := if includeIndex
    then (df.indexVals.zip df.rows).map (fun ir => ir.1 :: ir.2)
    else df.rows
  String.join (rows.map (fun r => csvRenderRow sep quote r ++ newline))

example : dfToCsv ⟨["id", "name"], [["1", "a"], ["2", "b"]], ["0", "1"]⟩
    DELIMITER QUOTECHAR NEWLINE false = "1|a\n2|b\n" := rfl

example : dfToCsv ⟨["id", "name"], [["1", "a"], ["2", "b"]], ["0", "1"]⟩
    DELIMITER QUOTECHAR NEWLINE true = "0|1|a\n1|2|b\n" := rfl

example : dfToCsv ⟨["t"], [["a|b"]], ["0"]⟩ DELIMITER QUOTECHAR NEWLINE false
    = "\"a|b\"\n" := rfl

/-! ### The file system and event world -/

/-- Observable external events. -/
inductive Event where
  | connOpened (connStr : String)
  deriving DecidableEq

/-- The world the pipelines act on: files (path, content), a counter
feeding fresh scratch-file names, and the event trace. -/
structure World where
  files : List (String × String)
  nextTmp : Nat
  events : List Event
  deriving DecidableEq

/-- The scratch path produced for counter value `n`. -/
def tmpName (n : Nat) : String := "tmp" ++ toString n

/-- Modelled from the spec: `utils.get_temp_file` is not among the given
sources; §4.4 has it return a path to a new, uniquely named, empty file
owned by the caller. -/
def getTempFile (w : World) : String × World :=
  (tmpName w.nextTmp,
   { w with files := w.files ++ [(tmpName w.nextTmp, "")], nextTmp := w.nextTmp + 1 })

/-- Overwrite the content stored at `path`. -/
def writeFile (w : World) (path content : String) : World :=
  { w with files := w.files.map (fun f => if f.1 == path then (path, content) else f) }

/-- `os.remove`. -/
def removeFile (w : World) (path : String) : World :=
  { w with files := w.files.filter (fun f => !(f.1 == path)) }

/-- Read the content stored at `path`, if the file exists. -/
def readFileQ (w : World) (path : String) : Option String :=
  (w.files.find? (fun f => f.1 == path)).map (fun f => f.2)

/-! ### Format-file building (`utils.build_format_file`) -/

/-- Modelled from the spec: the descriptor text (§6) — a version line, a
column-count line, then per column its ordinal, an interchange type token,
prefix and data lengths, the field delimiter (record terminator on the
last column), the destination ordinal and the destination column name. -/
def formatFileText (df : DataFrame) : String :=
  let n := df.cols.length
  let entry := fun (i : Nat) =>
    let term := if i + 1 == n then "\"\\n\"" else "\"" ++ DELIMITER.toString ++ "\""
    toString (i + 1) ++ " SQLCHAR 0 0 " ++ term ++ " " ++ toString (i + 1)
      ++ " " ++ df.cols.getD i ""
  "9.0" ++ NEWLINE ++ toString n ++ NEWLINE
    ++ String.intercalate NEWLINE ((List.range n).map entry) ++ NEWLINE

/-- Modelled from the spec: `utils.build_format_file` is not among the
given sources; §4.2 has it fail with a SchemaError on a dataset with zero
columns and otherwise deterministically produce the descriptor text. -/
def buildFormatFile (df : DataFrame) : Except PyError String :=
  if df.cols.isEmpty then Except.error PyError.schemaError
  else Except.ok (formatFileText df)

/-! ### The write path (`to_sql`) -/

/-- The body of `to_sql`'s `try` block: the existence-policy step (the
unimplemented `fail` check, the `replace` path reading
`creds.username` / `creds.password` to call the external `sqlcmd`, the
no-op `append`), then the inbound bulk-copy invocation, which per §4.5
fails with a BulkCopyError carrying the captured output and exit code when
the external exit status is non-zero.  The CREATE statement handed to
`sqlcmd` and `sqlcmd`'s own outcome are external-collaborator details not
observed by any claim; the body's observable behaviour is the attribute
reads and the raised errors. -/
def toSqlBody (creds : SqlCreds) (if_exists : String) (bcpExitCode : Nat)
    (bcpOutput : String) : Except PyError Unit :=
  if if_exists == "fail" then Except.error PyError.notImplementedError
  else
    match (if if_exists == "replace" then
            match creds.username, creds.password with
            | some _, some _ => Except.ok ()
            | none, _ => Except.error (PyError.attributeError "username")
            | some _, none => Except.error (PyError.attributeError "password")
          else Except.ok ()) with
    | Except.error e => Except.error e
    | Except.ok _ =>
      if bcpExitCode == 0 then Except.ok ()
      else Except.error (PyError.bulkCopyError bcpOutput bcpExitCode)

/-- `to_sql`: asserts the enum arguments, creates and writes the scratch
CSV (note the source passes `index=False` to `to_csv` regardless of the
`index` parameter), creates the scratch format file and writes the built
descriptor into it (a SchemaError from the builder escapes here, before
the `try` block), then runs the `try` body and, in the `finally` block,
deletes both scratch files unless `debug` is set. -/
def toSql (df : DataFrame) (table_name : String) (creds : SqlCreds)
    (sql_type schema : String) (index : Bool) (if_exists : String)
    (batch_size : Option Nat) (debug : Bool)
    (bcpExitCode : Nat) (bcpOutput : String) (w : World) :
    Except PyError Unit × World :=
  if !(SQL_TYPES.contains sql_type) then (Except.error PyError.assertionFailed, w)
  else if !(IF_EXISTS_OPTIONS.contains if_exists) then
    (Except.error PyError.assertionFailed, w)
  else
    let p1 := getTempFile w
    let csv_file_path := p1.1
    let w2 := writeFile p1.2 csv_file_path (dfToCsv df DELIMITER QUOTECHAR NEWLINE false)
    let p2 := getTempFile w2
    let fmt_file_path := p2.1
    let w3 := p2.2
    match buildFormatFile df with
    | Except.error e => (Except.error e, w3)
    | Except.ok fmt_file_txt =>
      let w4 := writeFile w3 fmt_file_path fmt_file_txt
      let body := toSqlBody creds if_exists bcpExitCode bcpOutput
      if debug then (body, w4)
      else (body, removeFile (removeFile w4 csv_file_path) fmt_file_path)

/-! ### Flat-file parsing (`pandas.read_csv`) -/

/-- Field splitter of the `read_csv` model: splits on `sep` outside
quotes, with embedded quotes escaped by doubling.  The state is `0` when
outside quotes, `1` inside a quoted section, and `2` right after a quote
character seen inside a quoted section (a second quote is a doubled
literal quote, anything else closes the section). -/
def csvParseGo (sep quote : Char) :
    List Char → Nat → List Char → List String → List String
  | [], _, cur, acc => acc ++ [String.mk cur.reverse]
  | c :: rest, 1, cur, acc =>
    if c == quote then csvParseGo sep quote rest 2 cur acc
    else csvParseGo sep quote rest 1 (c :: cur) acc
  | c :: rest, 2, cur, acc =>
    if c == quote then csvParseGo sep quote rest 1 (quote :: cur) acc
    else if c == sep then csvParseGo sep quote rest 0 [] (acc ++ [String.mk cur.reverse])
    else csvParseGo sep quote rest 0 (c :: cur) acc
  | c :: rest, _, cur, acc =>
    if c == sep then csvParseGo sep quote rest 0 [] (acc ++ [String.mk cur.reverse])
    else if c == quote then csvParseGo sep quote rest 1 cur acc
    else csvParseGo sep quote rest 0 (c :: cur) acc

/-- Split a character list into lines at newline characters. -/
def splitNlGo : List Char → List Char → List String → List String
  | [], cur, acc => acc ++ [String.mk cur.reverse]
  | c :: rest, cur, acc =>
    if c == '\n' then splitNlGo rest [] (acc ++ [String.mk cur.reverse])
    else splitNlGo rest (c :: cur) acc

/-- Split a string into lines at newline characters. -/
def splitLines (s : String) : List String := splitNlGo s.data [] []

/-- Align a parsed record with the supplied column names: pandas fills
missing trailing columns with NaN (modelled as `none`). -/
def padFields (n : Nat) (fs : List String) : List (Option String) :=
  (fs.take n).map some ++ List.replicate (n - fs.length) none

/-- The dataset returned by the read path: the supplied column names and
the parsed records (NaN cells as `none`). -/
structure ParsedFrame where
  names : List String
  rows : List (List (Option String))
  deriving DecidableEq

/-- `pandas.read_csv(header=None, names=names, index_col=False)` at
separator `sep`: non-blank lines, each split into fields and aligned with
`names`; the first line is data, not a header, and no index column is
assumed. -/
def readCsvModel (sep quote : Char) (content : String) (names : List String) :
    ParsedFrame :=
  let lines := (splitLines content).filter (fun l => !(l == ""))
  { names := names,
    rows := lines.map (fun l => padFields names.length (csvParseGo sep quote l.data 0 [] [])) }

example : readCsvModel ',' '"' "1,2\n3,4\n" ["x", "y"]
    = ⟨["x", "y"], [[some "1", some "2"], [some "3", some "4"]]⟩ := rfl

example : readCsvModel ',' '"' "1|2\n3|4\n" ["x", "y"]
    = ⟨["x", "y"], [[some "1|2", none], [some "3|4", none]]⟩ := rfl

/-! ### The read path (`read_sql`) -/

/-- `read_sql`: asserts the enum arguments and the driver version, rejects
target names holding `;`, builds the ODBC connection string (reading
`creds.username` then `creds.password`, each raising an AttributeError
when the attribute was never set), opens the connection, discovers the
column names with the bounded preview query (an external collaborator
whose answer is the `queryCols` oracle), bulk-copies outward into a
scratch file, parses it back with `read_csv` — which the source calls with
no separator argument, so the pandas default comma is used — and removes
the scratch file in the `finally` block. -/
def readSql (table_name : String) (creds : SqlCreds) (sql_type schema : String)
    (mssql_odbc_driver_version : Nat) (batch_size : Nat)
    (queryCols : List String) (bcpExitCode : Nat) (bcpOutput : String)
    (bcpOutContent : String) (w : World) : Except PyError ParsedFrame × World :=
  if !(SQL_TYPES.contains sql_type) then (Except.error PyError.assertionFailed, w)
  else if !(mssql_odbc_driver_version == 13 || mssql_odbc_driver_version == 17) then
    (Except.error PyError.assertionFailed, w)
  else if strContains table_name ";" then
    (Except.error (PyError.valueError
      ("The SQL item cannot contain the ; character, "
        ++ "it interferes with getting the column names")), w)
  else
    match creds.username with
    | none => (Except.error (PyError.attributeError "username"), w)
    | some uid =>
      match creds.password with
      | none => (Except.error (PyError.attributeError "password"), w)
      | some pwd =>
        let connStr := "DRIVER=\x7bODBC Driver " ++ toString mssql_odbc_driver_version
          ++ " for SQL Server\x7d;SERVER=" ++ creds.server ++ ";DATABASE="
          ++ creds.database ++ ";UID=" ++ uid ++ ";PWD=" ++ pwd
        let w1 := { w with events := w.events ++ [Event.connOpened connStr] }
        let from_clause := if SQL_TYPES.contains sql_type then table_name
          else "(" ++ table_name ++ ")"
        let cols := queryCols
        let p := getTempFile w1
        let file_path := p.1
        let w2 := p.2
        if bcpExitCode == 0 then
          let w3 := writeFile w2 file_path bcpOutContent
          let frame := readCsvModel ',' QUOTECHAR bcpOutContent cols
          (Except.ok frame, removeFile w3 file_path)
        else
          (Except.error (PyError.bulkCopyError bcpOutput bcpExitCode),
           removeFile w2 file_path)

example : (readSql "t" ⟨"s", "d", some "u", some "p", false⟩ "table" "dbo" 17 10000
    ["x", "y"] 0 "" "1|2\n3|4\n" ⟨[], 0, []⟩).1
    = Except.ok ⟨["x", "y"], [[some "1|2", none], [some "3|4", none]]⟩ := rfl

/-! ## Helper lemmas -/

/-- Aligning a record with `n` column names yields a record of length
`n`. -/
theorem padFields_length (n : Nat) (fs : List String) :
    (padFields n fs).length = n := by
  simp only [padFields, List.length_append, List.length_map, List.length_take,
    List.length_replicate]
  omega

/-- String append acts as list append on the underlying characters. -/
theorem strData_append (a b : String) : (a ++ b).data = a.data ++ b.data := rfl

/-- String append cancels on the left. -/
theorem strAppend_left_cancel (a b c : String) (h : a ++ b = a ++ c) : b = c := by
  apply String.ext
  have hd := congrArg String.data h
  simp only [strData_append] at hd
  exact List.append_cancel_left hd

/-! ## Claims -/

/-- Claim C4 (confirmed): a credential constructed with only server and
database (no username, no password) has integrated authentication
(`with_krb_auth = true`); a credential constructed with both username and
password supplied has password-based authentication
(`with_krb_auth = false`). -/
theorem creds_auth_mode (s d u p : String) (hs : s ≠ "") (hd : d ≠ "")
    (hu : u ≠ "") (hp : p ≠ "") :
    mkSqlCreds s d none none = Except.ok ⟨s, d, none, none, true⟩ ∧
    mkSqlCreds s d (some u) (some p) = Except.ok ⟨s, d, some u, some p, false⟩ := by
  constructor <;> simp [mkSqlCreds, truthyStr, hs, hd, hu, hp]

/-- Witness for C4 at concrete inputs. -/
theorem creds_auth_mode_witness :
    mkSqlCreds "srv" "db" none none = Except.ok ⟨"srv", "db", none, none, true⟩ ∧
    mkSqlCreds "srv" "db" (some "u") (some "p")
      = Except.ok ⟨"srv", "db", some "u", some "p", false⟩ :=
  creds_auth_mode "srv" "db" "u" "p" (by decide) (by decide) (by decide) (by decide)

/-- Claim C10 (confirmed): constructing a credential with exactly one of
username and password truthy (the other absent or empty) succeeds in
integrated mode and silently discards the supplied value — neither the
username nor the password attribute is set. -/
theorem creds_single_credential_discarded (s d : String) (u p : Option String)
    (hs : s ≠ "") (hd : d ≠ "") (hx : truthyStr u ≠ truthyStr p) :
    mkSqlCreds s d u p = Except.ok ⟨s, d, none, none, true⟩ := by
  have hup : (truthyStr u && truthyStr p) = false := by
    cases hu : truthyStr u <;> cases hp : truthyStr p <;> simp_all
  simp [mkSqlCreds, hs, hd, hup]

/-- Witness for C10: a username without a password is discarded. -/
theorem creds_single_credential_discarded_witness :
    mkSqlCreds "srv" "db" (some "u") none
      = Except.ok ⟨"srv", "db", none, none, true⟩ :=
  creds_single_credential_discarded "srv" "db" (some "u") none
    (by decide) (by decide) (by decide)

/-- Claim C6 (confirmed): `to_sql` with `if_exists = "fail"` raises the
distinct not-implemented signal (for any dataset with at least one column,
so that the pipeline reaches the existence-policy step). -/
theorem toSql_fail_not_implemented (df : DataFrame) (tn : String)
    (creds : SqlCreds) (st sch : String) (idx : Bool) (bs : Option Nat)
    (dbg : Bool) (ec : Nat) (out : String) (w : World)
    (hst : st ∈ SQL_TYPES) (hcols : df.cols ≠ []) :
    (toSql df tn creds st sch idx "fail" bs dbg ec out w).1
      = Except.error PyError.notImplementedError := by
  cases hc : df.cols with
  | nil => exact absurd hc hcols
  | cons a as =>
    cases dbg <;>
      simp [toSql, hst, IF_EXISTS_OPTIONS, buildFormatFile, hc, toSqlBody]

/-- Witness for C6 at concrete inputs. -/
theorem toSql_fail_not_implemented_witness :
    (toSql ⟨["a"], [["1"]], ["0"]⟩ "t" ⟨"s", "d", some "u", some "p", false⟩
        "table" "dbo" false "fail" none false 0 "" ⟨[], 0, []⟩).1
      = Except.error PyError.notImplementedError :=
  toSql_fail_not_implemented ⟨["a"], [["1"]], ["0"]⟩ "t"
    ⟨"s", "d", some "u", some "p", false⟩ "table" "dbo" false none false 0 ""
    ⟨[], 0, []⟩ (by decide) (by decide)

/-- Claim C3 (confirmed): `to_sql` with a `sql_type` outside
`{table, view}` or an `if_exists` outside `{fail, replace, append}` fails
with the spec's ValidationError (a fail-fast assertion failure, per the
spec's error taxonomy) and performs no file I/O: the world is returned
unchanged, so no scratch file is created or written. -/
theorem toSql_invalid_enum_validation (df : DataFrame) (tn : String)
    (creds : SqlCreds) (st sch : String) (idx : Bool) (ie : String)
    (bs : Option Nat) (dbg : Bool) (ec : Nat) (out : String) (w : World)
    (h : st ∉ SQL_TYPES ∨ ie ∉ IF_EXISTS_OPTIONS) :
    toSql df tn creds st sch idx ie bs dbg ec out w
      = (Except.error PyError.assertionFailed, w)
    ∧ isValidationError PyError.assertionFailed = true := by
  refine ⟨?_, rfl⟩
  cases h with
  | inl hst => simp [toSql, hst]
  | inr hie => by_cases hst : st ∈ SQL_TYPES <;> simp [toSql, hst, hie]

/-- Witness for C3: `sql_type = "function"` and `if_exists = "merge"` are
both rejected up front. -/
theorem toSql_invalid_enum_validation_witness :
    toSql ⟨["a"], [["1"]], ["0"]⟩ "t" ⟨"s", "d", some "u", some "p", false⟩
        "function" "dbo" false "append" none false 0 "" ⟨[], 5, []⟩
      = (Except.error PyError.assertionFailed, ⟨[], 5, []⟩)
    ∧ isValidationError PyError.assertionFailed = true :=
  toSql_invalid_enum_validation ⟨["a"], [["1"]], ["0"]⟩ "t"
    ⟨"s", "d", some "u", some "p", false⟩ "function" "dbo" false "append" none
    false 0 "" ⟨[], 5, []⟩ (Or.inl (by decide))

/-- Claim C5 counterexample (corrected): for the credential built from
server `"s"`, database `"d"`, username `"pw"` and password `"pw"`,
the string conversion contains the literal password value `"pw"` as a
substring (it appears through the literally rendered username), so the
claim as stated is false. -/
theorem creds_repr_password_leak :
    mkSqlCreds "s" "d" (some "pw") (some "pw")
      = Except.ok ⟨"s", "d", some "pw", some "pw", false⟩
    ∧ strContains (sqlCredsRepr ⟨"s", "d", some "pw", some "pw", false⟩) "pw" = true :=
  ⟨rfl, rfl⟩

/-- Claim C5 (corrected): the string conversion of a password-carrying
credential renders every field except the password literally and replaces
the password with the fixed `[REDACTED]` marker; it is independent of the
password's value, so the literal password can appear only through another
field's rendering (as in the counterexample). -/
theorem creds_repr_redacts_password (s d u p₁ p₂ : String) :
    sqlCredsRepr ⟨s, d, some u, some p₁, false⟩
      = sqlCredsRepr ⟨s, d, some u, some p₂, false⟩
    ∧ sqlCredsRepr ⟨s, d, some u, some p₁, false⟩
      = "SqlCreds(server=" ++ pyReprStr s ++ ", database=" ++ pyReprStr d
        ++ ", username=" ++ pyReprStr u
        ++ ", with_krb_auth=False, password=[REDACTED])" := by
  refine ⟨rfl, ?_⟩
  apply String.ext
  simp [sqlCredsRepr, sqlCredsDictNoPw, pyReprStr, pyReprBool, String.intercalate,
    String.intercalate.go, strData_append, squote]

/-- Claim C7 (confirmed): a `read_sql` call whose target name contains the
`;` character fails with the spec's ValidationError (a ValueError, or the
earlier fail-fast assertion when an enum argument is also bad) and leaves
the world untouched — in particular no database connection is opened and
no connection event is recorded. -/
theorem readSql_semicolon_validation (tn : String) (creds : SqlCreds)
    (st sch : String) (drv bs : Nat) (qc : List String) (ec : Nat)
    (out oc : String) (w : World)
    (h : strContains tn ";" = true) :
    (∃ e, (readSql tn creds st sch drv bs qc ec out oc w).1 = Except.error e
        ∧ isValidationError e = true)
    ∧ (readSql tn creds st sch drv bs qc ec out oc w).2 = w := by
  by_cases hst : st ∈ SQL_TYPES
  · by_cases hdrv : (drv == 13 || drv == 17) = true
    · refine ⟨⟨PyError.valueError
        ("The SQL item cannot contain the ; character, "
          ++ "it interferes with getting the column names"), ?_, rfl⟩, ?_⟩
        <;> simp [readSql, hst, hdrv, h]
    · refine ⟨⟨PyError.assertionFailed, ?_, rfl⟩, ?_⟩
        <;> simp [readSql, hst, hdrv]
  · refine ⟨⟨PyError.assertionFailed, ?_, rfl⟩, ?_⟩ <;> simp [readSql, hst]

/-- Witness for C7 at concrete inputs. -/
theorem readSql_semicolon_validation_witness :
    (∃ e, (readSql "tbl; DROP TABLE x" ⟨"s", "d", some "u", some "p", false⟩
        "table" "dbo" 17 10000 [] 0 "" "" ⟨[], 0, []⟩).1 = Except.error e
        ∧ isValidationError e = true)
    ∧ (readSql "tbl; DROP TABLE x" ⟨"s", "d", some "u", some "p", false⟩
        "table" "dbo" 17 10000 [] 0 "" "" ⟨[], 0, []⟩).2 = ⟨[], 0, []⟩ :=
  readSql_semicolon_validation "tbl; DROP TABLE x"
    ⟨"s", "d", some "u", some "p", false⟩ "table" "dbo" 17 10000 [] 0 "" ""
    ⟨[], 0, []⟩ (by rfl)

/-- Claim C9 (confirmed): for a credential in integrated mode — whose
username and password attributes were never set — `read_sql`
unconditionally reads `creds.username` while building the connection
string, and `to_sql` with `if_exists = "replace"` reads it while building
the `sqlcmd` arguments; both fail with an AttributeError instead of using
integrated authentication (and `read_sql` records no connection event). -/
theorem krb_creds_attribute_error (creds : SqlCreds)
    (hu : creds.username = none)
    (df : DataFrame) (tn tn2 : String) (st st2 sch sch2 : String) (idx : Bool)
    (bs : Option Nat) (ec : Nat) (out : String)
    (drv bs2 : Nat) (qc : List String) (ec2 : Nat) (out2 oc : String)
    (w w2 : World)
    (hst : st ∈ SQL_TYPES) (hcols : df.cols ≠ [])
    (hst2 : st2 ∈ SQL_TYPES) (hdrv : (drv == 13 || drv == 17) = true)
    (hsc : strContains tn2 ";" = false) :
    (toSql df tn creds st sch idx "replace" bs false ec out w).1
      = Except.error (PyError.attributeError "username")
    ∧ readSql tn2 creds st2 sch2 drv bs2 qc ec2 out2 oc w2
      = (Except.error (PyError.attributeError "username"), w2) := by
  constructor
  · cases hc : df.cols with
    | nil => exact absurd hc hcols
    | cons a as =>
      simp [toSql, hst, IF_EXISTS_OPTIONS, buildFormatFile, hc, toSqlBody, hu]
  · simp [readSql, hst2, hdrv, hsc, hu]

/-- Witness for C9: the credential produced by `mkSqlCreds` without a
password fails both paths with the username AttributeError. -/
theorem krb_creds_attribute_error_witness :
    (toSql ⟨["a"], [["1"]], ["0"]⟩ "t" ⟨"s", "d", none, none, true⟩
        "table" "dbo" false "replace" none false 0 "" ⟨[], 0, []⟩).1
      = Except.error (PyError.attributeError "username")
    ∧ readSql "t" ⟨"s", "d", none, none, true⟩ "view" "dbo" 17 10000 [] 0 "" ""
        ⟨[], 3, []⟩
      = (Except.error (PyError.attributeError "username"), ⟨[], 3, []⟩) :=
  krb_creds_attribute_error ⟨"s", "d", none, none, true⟩ rfl
    ⟨["a"], [["1"]], ["0"]⟩ "t" "t" "table" "view" "dbo" "dbo" false none 0 ""
    17 10000 [] 0 "" "" ⟨[], 0, []⟩ ⟨[], 3, []⟩
    (by decide) (by decide) (by decide) (by decide) (by rfl)

/-- Claim C1 counterexample (corrected): with `debug = False`, a failure
during format-file building (the SchemaError the spec assigns to a
zero-column dataset) propagates although neither scratch file has been
deleted — both the flat file and the (still empty) format file remain,
because the source creates them before entering the `try` block whose
`finally` performs cleanup.  This refutes the claim for steps 2–3. -/
theorem toSql_cleanup_cex :
    (toSql ⟨[], [], []⟩ "t" ⟨"s", "d", some "u", some "p", false⟩ "table" "dbo"
        false "append" none false 0 "" ⟨[], 0, []⟩).1
      = Except.error PyError.schemaError
    ∧ (toSql ⟨[], [], []⟩ "t" ⟨"s", "d", some "u", some "p", false⟩ "table" "dbo"
        false "append" none false 0 "" ⟨[], 0, []⟩).2.files
      = [("tmp0", ""), ("tmp1", "")] :=
  ⟨rfl, rfl⟩

/-- Claim C1 (corrected): once both scratch files have been created and
written — that is, for any dataset with at least one column, so that
serialization and format-file building succeed — every exit of the `try`
block, success or failure of the existence-policy step and of the
bulk-copy invocation, runs the cleanup: with `debug = False` both scratch
files are deleted (starting from a world with no files, none remain), and
a bulk-copy failure then surfaces as a BulkCopyError carrying the captured
output.  Failures before the `try` block (validation, serialization,
format-file building) propagate without this cleanup, as the
counterexample shows. -/
theorem toSql_cleanup_amended (df : DataFrame) (tn : String) (creds : SqlCreds)
    (st sch : String) (idx : Bool) (ie : String) (bs : Option Nat)
    (ec : Nat) (out : String) (n : Nat) (es : List Event)
    (hst : st ∈ SQL_TYPES) (hie : ie ∈ IF_EXISTS_OPTIONS)
    (hcols : df.cols ≠ []) :
    (toSql df tn creds st sch idx ie bs false ec out ⟨[], n, es⟩).2.files = []
    ∧ (ie = "append" → ec ≠ 0 →
        (toSql df tn creds st sch idx ie bs false ec out ⟨[], n, es⟩).1
          = Except.error (PyError.bulkCopyError out ec)) := by
  cases hc : df.cols with
  | nil => exact absurd hc hcols
  | cons a as =>
    constructor
    · by_cases heq : toString n = toString (n + 1)
      · simp [toSql, hst, hie, buildFormatFile, hc, getTempFile, writeFile,
          removeFile, tmpName, heq, List.filter]
      · have h1 : ¬("tmp" ++ toString n = "tmp" ++ toString (n + 1)) :=
          fun h => heq (strAppend_left_cancel "tmp" _ _ h)
        have h2 : ¬("tmp" ++ toString (n + 1) = "tmp" ++ toString n) :=
          fun h => h1 h.symm
        have h3 : ("tmp" ++ toString (n + 1) == "tmp" ++ toString n) = false := by
          simp [h2]
        have h4 : ("tmp" ++ toString n == "tmp" ++ toString (n + 1)) = false := by
          simp [h1]
        simp [toSql, hst, hie, buildFormatFile, hc, getTempFile, writeFile,
          removeFile, tmpName, h1, h2, h3, h4, List.filter]
    · intro hie2 hec
      subst hie2
      simp [toSql, hst, hie, buildFormatFile, hc, toSqlBody, hec]

/-- Witness for C1 (amended) matching the spec's bulk-copy failure
scenario: exit status 1 with output "Login failed" raises a BulkCopyError
carrying that output, and both scratch files are gone. -/
theorem toSql_cleanup_amended_witness :
    (toSql ⟨["a"], [["1"]], ["0"]⟩ "t" ⟨"s", "d", some "u", some "p", false⟩
        "table" "dbo" false "append" none false 1 "Login failed"
        ⟨[], 0, []⟩).2.files = []
    ∧ ("append" = "append" → (1 : Nat) ≠ 0 →
        (toSql ⟨["a"], [["1"]], ["0"]⟩ "t" ⟨"s", "d", some "u", some "p", false⟩
            "table" "dbo" false "append" none false 1 "Login failed"
            ⟨[], 0, []⟩).1
          = Except.error (PyError.bulkCopyError "Login failed" 1)) :=
  toSql_cleanup_amended ⟨["a"], [["1"]], ["0"]⟩ "t"
    ⟨"s", "d", some "u", some "p", false⟩ "table" "dbo" false "append" none
    1 "Login failed" 0 [] (by decide) (by decide) (by decide)

/-- Claim C2 (code_bug): the source's docstring documents
`index : bool, default True — write DataFrame index as a column`, yet the
`to_csv` call hard-codes `index=False`, so a call with `index=True` on a
one-row dataset with index value `"0"` writes the flat file `"1\n"`
without the index column, although the serialization including the
requested index would be `"0|1\n"`.  Everything else about the flat file
(shared delimiter and terminator, minimal quoting with doubled quotes, no
escape character, no header row) matches the claim. -/
theorem toSql_index_param_ignored :
    (toSql ⟨["a"], [["1"]], ["0"]⟩ "t" ⟨"s", "d", some "u", some "p", false⟩
        "table" "dbo" true "append" none true 0 "" ⟨[], 0, []⟩).1 = Except.ok ()
    ∧ readFileQ (toSql ⟨["a"], [["1"]], ["0"]⟩ "t"
        ⟨"s", "d", some "u", some "p", false⟩ "table" "dbo" true "append" none
        true 0 "" ⟨[], 0, []⟩).2 "tmp0" = some "1\n"
    ∧ dfToCsv ⟨["a"], [["1"]], ["0"]⟩ DELIMITER QUOTECHAR NEWLINE true = "0|1\n" :=
  ⟨rfl, rfl, rfl⟩

/-- Claim C8 counterexample (corrected): `read_sql` with discovered
columns `[x, y]` over the bulk-copy file content `"1|2\n3|4\n"` does not
return the dataset `{x:[1,3], y:[2,4]}`: the source calls `read_csv`
without a separator argument, so the comma default splits each line into
the single field `"1|2"` / `"3|4"` under column `x`, with `y` filled with
missing values. -/
theorem readSql_scenario_cex :
    (readSql "t" ⟨"s", "d", some "u", some "p", false⟩ "table" "dbo" 17 10000
        ["x", "y"] 0 "" "1|2\n3|4\n" ⟨[], 0, []⟩).1
      = Except.ok ⟨["x", "y"], [[some "1|2", none], [some "3|4", none]]⟩
    ∧ (⟨["x", "y"], [[some "1|2", none], [some "3|4", none]]⟩ : ParsedFrame)
      ≠ ⟨["x", "y"], [[some "1", some "2"], [some "3", some "4"]]⟩ :=
  ⟨rfl, by decide⟩

/-- Claim C8 (corrected): the scratch flat file is parsed back with the
column names discovered by the preview query, in order, with no header row
and no index column, but with pandas' default comma separator (the
`read_csv` call passes none); every returned record is aligned with the
discovered column count, and on comma-delimited content `"1,2\n3,4\n"`
with discovered columns `[x, y]` the result is the 2-row dataset
`{x:[1,3], y:[2,4]}`. -/
theorem readSql_parse_amended (tn : String) (creds : SqlCreds) (sch : String)
    (bs : Nat) (qc : List String) (out content : String) (w : World)
    (u p : String) (hu : creds.username = some u) (hp : creds.password = some p)
    (hsc : strContains tn ";" = false) :
    (∃ pf : ParsedFrame,
      (readSql tn creds "table" sch 17 bs qc 0 out content w).1 = Except.ok pf
      ∧ pf.names = qc
      ∧ pf.rows = (readCsvModel ',' QUOTECHAR content qc).rows
      ∧ ∀ row ∈ pf.rows, row.length = qc.length)
    ∧ (readSql "t" ⟨"s", "d", some "u", some "p", false⟩ "table" "dbo" 17 10000
        ["x", "y"] 0 "" "1,2\n3,4\n" ⟨[], 0, []⟩).1
      = Except.ok ⟨["x", "y"], [[some "1", some "2"], [some "3", some "4"]]⟩ := by
  refine ⟨⟨readCsvModel ',' QUOTECHAR content qc, ?_, rfl, rfl, ?_⟩, rfl⟩
  · simp [readSql, hu, hp, hsc, SQL_TYPES, TABLE, VIEW]
  · intro row hrow
    simp only [readCsvModel, List.mem_map] at hrow
    obtain ⟨l, _, hl⟩ := hrow
    rw [← hl]
    exact padFields_length qc.length _

/-- Witness for C8 (amended) at concrete inputs. -/
theorem readSql_parse_amended_witness :
    (∃ pf : ParsedFrame,
      (readSql "t" ⟨"s", "d", some "u", some "p", false⟩ "table" "dbo" 17 10000
          ["x", "y"] 0 "" "1,2\n3,4\n" ⟨[], 0, []⟩).1 = Except.ok pf
      ∧ pf.names = ["x", "y"]
      ∧ pf.rows = (readCsvModel ',' QUOTECHAR "1,2\n3,4\n" ["x", "y"]).rows
      ∧ ∀ row ∈ pf.rows, row.length = ["x", "y"].length)
    ∧ (readSql "t" ⟨"s", "d", some "u", some "p", false⟩ "table" "dbo" 17 10000
        ["x", "y"] 0 "" "1,2\n3,4\n" ⟨[], 0, []⟩).1
      = Except.ok ⟨["x", "y"], [[some "1", some "2"], [some "3", some "4"]]⟩ :=
  readSql_parse_amended "t" ⟨"s", "d", some "u", some "p", false⟩ "dbo" 10000
    ["x", "y"] "" "1,2\n3,4\n" ⟨[], 0, []⟩ "u" "p" rfl rfl (by rfl)

end BcPandas
